import Mathlib

/-!
Shallow embedding of the CloudFront Lambda@Edge A/B assignment handler
found in src/cdk/lib/lambda/ab-lambda-function.js, together with proofs
of the behavioural properties stated in the repository specification.

The JavaScript handler receives a viewer-request event, scans the
request's cookie header entries for one of two experiment markers,
passes the request through unchanged when a marker is recognized, and
otherwise draws a uniform random number and responds with a 302
redirect that sets the assignment cookie.

Modelling choices:
* `Math.random()` is abstracted as an explicit rational argument
  `rand : Rat` (the draw lies in [0, 1); the code only compares it
  with 0.75 = 3/4).
* `value.indexOf(pat) >= 0` is modelled by `containsSubstr`, an
  executable substring test over the character lists of the strings.
* The main model `handler` is the handler as a total function of the
  extracted request, mirroring lines 10-66 of the source, which is the
  domain all request-level properties quantify over.
* A second model `handlerJS`, over `RawEvent`, additionally captures
  the JavaScript fault behaviour of the event-unwrapping and cookie
  loop (lines 4-9 and 25-31): accessing a property of `undefined`
  throws a `TypeError`, modelled as `Except JsError`.
-/

/-- Marker literal for experiment A (`cookieExperimentA` in the source). -/
def cookieExperimentA : String := "X-Experiment-Name=A"

/-- Marker literal for experiment B (`cookieExperimentB` in the source). -/
def cookieExperimentB : String := "X-Experiment-Name=B"

/-- Redirect target for group B (`groupBUri` in the source). -/
def groupBUri : String := "/blue/"

/-- Does `pat` match at the head of `cs`? Auxiliary for `containsSubstr`. -/
def matchesAt : List Char → List Char → Bool
  | [], _ => true
  | _ :: _, [] => false
  | p :: ps, c :: cs => (p == c) && matchesAt ps cs

/-- Does `pat` occur as a contiguous run inside `cs`? -/
def occursIn (pat : List Char) : List Char → Bool
  | [] => pat.isEmpty
  | c :: cs => matchesAt pat (c :: cs) || occursIn pat cs

/-- JavaScript `s.indexOf(pat) >= 0`: `pat` occurs as a substring of `s`. -/
def containsSubstr (s pat : String) : Bool :=
  occursIn pat.toList s.toList

/-- One entry of the `cookie` request header (a `{key, value}` record of
the CloudFront event; the handler only reads `value`). -/
structure CookieEntry where
  value : String
deriving DecidableEq

/-- The request headers as far as the handler consumes them: the
`cookie` header is an optional list of entries. -/
structure CFHeaders where
  cookie : Option (List CookieEntry)
deriving DecidableEq

/-- The viewer request (`event.Records[0].cf.request`). The handler reads
only `headers`; `uri` stands for the remaining fields it carries through
untouched on the pass-through path. -/
structure CFRequest where
  headers : CFHeaders
  uri : String
deriving DecidableEq

/-- One `{key, value}` entry of a response header list. -/
structure RespEntry where
  key : String
  value : String
deriving DecidableEq

/-- The synthesized redirect response: status, status description and a
header map given as an association list from header-map key to entry
list, in the order the source writes it. -/
structure RedirectResponse where
  status : String
  statusDescription : String
  headers : List (String × List RespEntry)
deriving DecidableEq

/-- The handler's single output: either the (unchanged) request object
passed through, or a synthesized redirect. -/
inductive HandlerResult (Req : Type) where
  | passThrough (request : Req)
  | redirect (response : RedirectResponse)
deriving DecidableEq

/-- The cookie loop of the source (lines 25-37): scan entries in order;
on each entry test the A marker first, then the B marker; stop at the
first recognized marker and report it (`selectedExperiment` with
`cookiePresent = true`); report `none` when no entry matches. -/
def scanCookies : List CookieEntry → Option String
  | [] => none
  | e :: rest =>
    if containsSubstr e.value cookieExperimentA then some cookieExperimentA
    else if containsSubstr e.value cookieExperimentB then some cookieExperimentB
    else scanCookies rest

/-- The marker recognized from a request's cookie header, if any
(lines 23-38: the loop runs only when `headers.cookie` is present). -/
def recognizedMarker (request : CFRequest) : Option String :=
  match request.headers.cookie with
  | some entries => scanCookies entries
  | none => none

/-- The redirect built on the random-assignment path (lines 44-61):
draw `rand`, pick A when `rand < 0.75` and B otherwise, and attach the
`location` / `set-cookie` headers exactly as the source object literal
writes them. -/
def buildRedirect (rand : Rat) : RedirectResponse :=
  let selectedExperiment :=
    if rand < 3 / 4 then cookieExperimentA else cookieExperimentB
  { status := "302"
    statusDescription := "Found"
    headers :=
      [("location",
        [{ key := "Location"
           value := if selectedExperiment == cookieExperimentB then groupBUri else "/" }]),
       ("set-cookie",
        [{ key := "Set-Cookie", value := selectedExperiment }])] }

/-- The handler as a total function of the extracted viewer request and
the random draw: pass the request through unchanged when a marker is
recognized, otherwise emit the redirect (lines 10-66 of the source). -/
def handler (request : CFRequest) (rand : Rat) : HandlerResult CFRequest :=
  match recognizedMarker request with
  | some _ => .passThrough request
  | none => .redirect (buildRedirect rand)

/-- First entry value stored under header-map key `name` of a redirect
response, if any. -/
def headerValue (r : RedirectResponse) (name : String) : Option String :=
  match r.headers.lookup name with
  | some (e :: _) => some e.value
  | _ => none

/-- The keys of the redirect's header map, in order (empty for a
pass-through). -/
def respHeaderKeys : HandlerResult CFRequest → List String
  | .passThrough _ => []
  | .redirect resp => resp.headers.map Prod.fst

/-! ### Fault-sensitive model of the JavaScript

`handlerJS` re-traces the same code over a raw event in which the
structural fields the code dereferences may be absent, the way a
malformed JavaScript event would present them: reading a property of
`undefined` throws a `TypeError`. -/

/-- A raw cookie entry whose `value` field may be absent. -/
structure RawCookieEntry where
  value : Option String
deriving DecidableEq

/-- Raw request headers. -/
structure RawHeaders where
  cookie : Option (List RawCookieEntry)
deriving DecidableEq

/-- A raw viewer request. -/
structure RawRequest where
  headers : RawHeaders
deriving DecidableEq

/-- A raw event: `Records` may be absent or empty. Each present record
stands for its `.cf.request` payload. -/
structure RawEvent where
  records : Option (List RawRequest)
deriving DecidableEq

/-- The JavaScript runtime fault the unguarded property accesses can
raise. -/
inductive JsError where
  | typeError
deriving DecidableEq

/-- The cookie loop over raw entries: `headers.cookie[i].value.indexOf`
throws a `TypeError` when the entry has no `value` field. -/
def scanCookiesJS : List RawCookieEntry → Except JsError (Option String)
  | [] => .ok none
  | e :: rest =>
    match e.value with
    | none => .error .typeError
    | some v =>
      if containsSubstr v cookieExperimentA then .ok (some cookieExperimentA)
      else if containsSubstr v cookieExperimentB then .ok (some cookieExperimentB)
      else scanCookiesJS rest

/-- The handler over a raw event, fault behaviour included:
`event.Records[0].cf.request` throws when `Records` is absent or empty,
and the cookie loop throws on an entry without a `value`. -/
def handlerJS (event : RawEvent) (rand : Rat) :
    Except JsError (HandlerResult RawRequest) := do
  let request ← match event.records with
    | none => .error .typeError
    | some [] => .error .typeError
    | some (r :: _) => .ok r
  let found ← match request.headers.cookie with
    | some entries => scanCookiesJS entries
    | none => .ok none
  match found with
  | some _ => .ok (.passThrough request)
  | none => .ok (.redirect (buildRedirect rand))

/-! ### Concrete fixtures used by witnesses and counterexamples -/

/-- A request with no cookie header at all. -/
def reqNoCookie : CFRequest :=
  { headers := { cookie := none }, uri := "/index.html" }

/-- A request whose single cookie entry holds the A marker. -/
def reqCookieA : CFRequest :=
  { headers := { cookie := some [{ value := "X-Experiment-Name=A" }] }
    uri := "/index.html" }


/-! ### Lemmas about the cookie scan and the redirect builder -/

/-- A scan over entries that match neither marker reports no marker. -/
lemma scanCookies_of_all_unrecognized {es : List CookieEntry}
    (h : ∀ e ∈ es, containsSubstr e.value cookieExperimentA = false ∧
      containsSubstr e.value cookieExperimentB = false) :
    scanCookies es = none := by
  induction es with
  | nil => rfl
  | cons f rest ih =>
    have hf := h f (List.mem_cons_self f rest)
    have hrest := ih fun x hx => h x (List.mem_cons_of_mem f hx)
    simp [scanCookies, hf.1, hf.2, hrest]

/-- Entries that match neither marker are skipped by the scan. -/
lemma scanCookies_append_unrecognized {pre : List CookieEntry} (l : List CookieEntry)
    (h : ∀ e ∈ pre, containsSubstr e.value cookieExperimentA = false ∧
      containsSubstr e.value cookieExperimentB = false) :
    scanCookies (pre ++ l) = scanCookies l := by
  induction pre with
  | nil => rfl
  | cons f rest ih =>
    have hf := h f (List.mem_cons_self f rest)
    have hrest := ih fun x hx => h x (List.mem_cons_of_mem f hx)
    simp [scanCookies, hf.1, hf.2, hrest]

/-- If some entry holds a marker, the scan reports a marker. -/
lemma scanCookies_isSome_of_mem {es : List CookieEntry} {e : CookieEntry} (he : e ∈ es)
    (h : containsSubstr e.value cookieExperimentA = true ∨
      containsSubstr e.value cookieExperimentB = true) :
    ∃ m, scanCookies es = some m := by
  induction es with
  | nil => cases he
  | cons f rest ih =>
    by_cases hA : containsSubstr f.value cookieExperimentA = true
    · exact ⟨cookieExperimentA, by simp [scanCookies, hA]⟩
    · by_cases hB : containsSubstr f.value cookieExperimentB = true
      · exact ⟨cookieExperimentB, by simp [scanCookies, hA, hB]⟩
      · rcases List.mem_cons.mp he with rfl | hmem
        · rcases h with h | h
          · exact absurd h hA
          · exact absurd h hB
        · obtain ⟨m, hm⟩ := ih hmem
          exact ⟨m, by simp [scanCookies, hA, hB, hm]⟩

/-- When the draw is below the threshold the redirect assigns A. -/
lemma buildRedirect_of_lt {rand : Rat} (h : rand < 3 / 4) :
    buildRedirect rand =
      { status := "302", statusDescription := "Found"
        headers := [("location", [{ key := "Location", value := "/" }]),
          ("set-cookie", [{ key := "Set-Cookie", value := cookieExperimentA }])] } := by
  simp [buildRedirect, h]
  decide

/-- When the draw is at or above the threshold the redirect assigns B. -/
lemma buildRedirect_of_not_lt {rand : Rat} (h : ¬ rand < 3 / 4) :
    buildRedirect rand =
      { status := "302", statusDescription := "Found"
        headers := [("location", [{ key := "Location", value := groupBUri }]),
          ("set-cookie", [{ key := "Set-Cookie", value := cookieExperimentB }])] } := by
  simp [buildRedirect, h]

/-! ### Claim theorems -/

/-- C1: a request whose cookie header holds an entry containing the A
or the B marker is passed through as the unchanged input request — no
Set-Cookie, no redirect, no field modified. -/
theorem pass_through_on_recognized_cookie (req : CFRequest)
    (entries : List CookieEntry) (rand : Rat)
    (hc : req.headers.cookie = some entries)
    (hex : ∃ e ∈ entries, containsSubstr e.value cookieExperimentA = true ∨
      containsSubstr e.value cookieExperimentB = true) :
    handler req rand = .passThrough req := by
  obtain ⟨e, he, hm⟩ := hex
  obtain ⟨m, hsc⟩ := scanCookies_isSome_of_mem he hm
  simp [handler, recognizedMarker, hc, hsc]

/-- Witness for C1 at a concrete request carrying the A marker. -/
theorem pass_through_on_recognized_cookie_witness :
    handler reqCookieA 0 = .passThrough reqCookieA :=
  pass_through_on_recognized_cookie reqCookieA [{ value := "X-Experiment-Name=A" }] 0
    rfl ⟨{ value := "X-Experiment-Name=A" }, by decide, Or.inl (by decide)⟩

/-- C2: a request with no cookie header yields a 302 "Found" redirect
whose set-cookie value is one of the two markers, with the matching
location: "/" for A, "/blue/" for B. -/
theorem redirect_on_no_cookie (req : CFRequest) (rand : Rat)
    (hc : req.headers.cookie = none) :
    ∃ resp, handler req rand = .redirect resp ∧
      resp.status = "302" ∧ resp.statusDescription = "Found" ∧
      ((headerValue resp "set-cookie" = some cookieExperimentA ∧
        headerValue resp "location" = some "/") ∨
       (headerValue resp "set-cookie" = some cookieExperimentB ∧
        headerValue resp "location" = some groupBUri)) := by
  refine ⟨buildRedirect rand, ?_, ?_⟩
  · unfold handler recognizedMarker
    rw [hc]
  · by_cases h : rand < 3 / 4
    · rw [buildRedirect_of_lt h]
      exact ⟨rfl, rfl, Or.inl ⟨rfl, rfl⟩⟩
    · rw [buildRedirect_of_not_lt h]
      exact ⟨rfl, rfl, Or.inr ⟨rfl, rfl⟩⟩

/-- Witness for C2 at a concrete cookie-less request. -/
theorem redirect_on_no_cookie_witness :
    ∃ resp, handler reqNoCookie 0 = .redirect resp ∧
      resp.status = "302" ∧ resp.statusDescription = "Found" ∧
      ((headerValue resp "set-cookie" = some cookieExperimentA ∧
        headerValue resp "location" = some "/") ∨
       (headerValue resp "set-cookie" = some cookieExperimentB ∧
        headerValue resp "location" = some groupBUri)) :=
  redirect_on_no_cookie reqNoCookie 0 rfl

/-- The set-cookie value of the built redirect is the selected marker. -/
lemma headerValue_buildRedirect_setCookie (rand : Rat) :
    headerValue (buildRedirect rand) "set-cookie" =
      some (if rand < 3 / 4 then cookieExperimentA else cookieExperimentB) := by
  by_cases h : rand < 3 / 4
  · rw [buildRedirect_of_lt h, if_pos h]
    rfl
  · rw [buildRedirect_of_not_lt h, if_neg h]
    rfl

/-- The location value of the built redirect follows the selected
variant. -/
lemma headerValue_buildRedirect_location (rand : Rat) :
    headerValue (buildRedirect rand) "location" =
      some (if rand < 3 / 4 then "/" else groupBUri) := by
  by_cases h : rand < 3 / 4
  · rw [buildRedirect_of_lt h, if_pos h]
    rfl
  · rw [buildRedirect_of_not_lt h, if_neg h]
    rfl

/-- C3: with no recognized marker and the draw `rand` in [0, 1), the
emitted redirect assigns A exactly when `rand < 0.75` and B otherwise;
in particular `rand = 0.75` assigns B. -/
theorem random_split_75_25 (req : CFRequest) (rand : Rat)
    (h0 : 0 ≤ rand) (h1 : rand < 1)
    (hm : recognizedMarker req = none) :
    ∃ resp, handler req rand = .redirect resp ∧
      (headerValue resp "set-cookie" = some cookieExperimentA ↔ rand < 3 / 4) ∧
      (headerValue resp "set-cookie" = some cookieExperimentB ↔ ¬ rand < 3 / 4) := by
  refine ⟨buildRedirect rand, ?_, ?_, ?_⟩
  · simp [handler, hm]
  · rw [headerValue_buildRedirect_setCookie]
    by_cases h : rand < 3 / 4
    · rw [if_pos h]
      exact iff_of_true rfl h
    · rw [if_neg h]
      exact iff_of_false
        (fun hv => absurd (Option.some.inj hv) (by decide)) h
  · rw [headerValue_buildRedirect_setCookie]
    by_cases h : rand < 3 / 4
    · rw [if_pos h]
      exact iff_of_false
        (fun hv => absurd (Option.some.inj hv) (by decide)) (by simpa using h)
    · rw [if_neg h]
      exact iff_of_true rfl h

/-- Witness for C3 at the boundary draw 0.75, which assigns B. -/
theorem random_split_75_25_witness :
    ∃ resp, handler reqNoCookie (3 / 4) = .redirect resp ∧
      (headerValue resp "set-cookie" = some cookieExperimentA ↔ (3 / 4 : Rat) < 3 / 4) ∧
      (headerValue resp "set-cookie" = some cookieExperimentB ↔ ¬ (3 / 4 : Rat) < 3 / 4) :=
  random_split_75_25 reqNoCookie (3 / 4) (by norm_num) (by norm_num) rfl

/-- A request whose single cookie entry has an empty value. -/
def reqEmptyCookieValue : CFRequest :=
  { headers := { cookie := some [{ value := "" }] }, uri := "/index.html" }

/-- A request with an unrecognized entry, then an A entry, then a B
entry. -/
def reqMulti : CFRequest :=
  { headers := { cookie := some [{ value := "foo=bar" },
      { value := "X-Experiment-Name=A" }, { value := "X-Experiment-Name=B" }] }
    uri := "/index.html" }

/-- A request whose single cookie entry mentions the B marker before
the A marker inside one value string. -/
def reqBothMarkers : CFRequest :=
  { headers := { cookie := some [{ value := "X-Experiment-Name=B; X-Experiment-Name=A" }] }
    uri := "/index.html" }

/-- C4: starting from a cookie-less request, the redirect's set-cookie
value presented as the sole cookie entry of a later request is passed
through with the same recognized variant, for every later draw — the
handler never re-randomizes an assigned client. -/
theorem sticky_assignment (req : CFRequest) (rand rand2 : Rat)
    (hc : req.headers.cookie = none) :
    ∃ resp m, handler req rand = .redirect resp ∧
      headerValue resp "set-cookie" = some m ∧
      ∀ req2 : CFRequest, req2.headers.cookie = some [{ value := m }] →
        handler req2 rand2 = .passThrough req2 ∧
          recognizedMarker req2 = some m := by
  refine ⟨buildRedirect rand,
    if rand < 3 / 4 then cookieExperimentA else cookieExperimentB,
    by simp [handler, recognizedMarker, hc],
    headerValue_buildRedirect_setCookie rand, ?_⟩
  intro req2 h2
  by_cases h : rand < 3 / 4
  · rw [if_pos h] at h2 ⊢
    have hscan : scanCookies [{ value := cookieExperimentA }] = some cookieExperimentA := by
      decide
    exact ⟨by simp [handler, recognizedMarker, h2, hscan],
      by simp [recognizedMarker, h2, hscan]⟩
  · rw [if_neg h] at h2 ⊢
    have hscan : scanCookies [{ value := cookieExperimentB }] = some cookieExperimentB := by
      decide
    exact ⟨by simp [handler, recognizedMarker, h2, hscan],
      by simp [recognizedMarker, h2, hscan]⟩

/-- Witness for C4 starting at a concrete cookie-less request. -/
theorem sticky_assignment_witness :
    ∃ resp m, handler reqNoCookie 0 = .redirect resp ∧
      headerValue resp "set-cookie" = some m ∧
      ∀ req2 : CFRequest, req2.headers.cookie = some [{ value := m }] →
        handler req2 0 = .passThrough req2 ∧
          recognizedMarker req2 = some m :=
  sticky_assignment reqNoCookie 0 0 rfl

/-- A malformed event whose `Records` array is empty. -/
def eventEmptyRecords : RawEvent := { records := some [] }

/-- A malformed event whose single cookie entry lacks a `value` field. -/
def eventEntryNoValue : RawEvent :=
  { records := some [{ headers := { cookie := some [{ value := none }] } }] }

/-- C5 evidence: on structurally malformed events — `Records` empty, or
a cookie entry without a `value` field — the code raises a `TypeError`
instead of completing with a degraded response. -/
theorem handlerJS_fault_on_malformed_event :
    handlerJS eventEmptyRecords 0 = .error .typeError ∧
    handlerJS eventEntryNoValue 0 = .error .typeError :=
  ⟨rfl, rfl⟩

/-- C6: with every entry before it unrecognized, an entry holding the A
marker decides the scan as A even though a later entry holds the B
marker — the scan stops at the first recognized entry. -/
theorem first_match_wins (pre mid post : List CookieEntry) (eA eB : CookieEntry)
    (req : CFRequest) (rand : Rat)
    (hpre : ∀ e ∈ pre, containsSubstr e.value cookieExperimentA = false ∧
      containsSubstr e.value cookieExperimentB = false)
    (hA : containsSubstr eA.value cookieExperimentA = true)
    (hB : containsSubstr eB.value cookieExperimentB = true)
    (hc : req.headers.cookie = some (pre ++ eA :: (mid ++ eB :: post))) :
    recognizedMarker req = some cookieExperimentA ∧
      handler req rand = .passThrough req := by
  have hscan : scanCookies (pre ++ eA :: (mid ++ eB :: post)) = some cookieExperimentA := by
    rw [scanCookies_append_unrecognized _ hpre]
    simp [scanCookies, hA]
  exact ⟨by simp [recognizedMarker, hc, hscan],
    by simp [handler, recognizedMarker, hc, hscan]⟩

/-- Witness for C6 at a concrete request with an unrecognized entry, an
A entry and a later B entry. -/
theorem first_match_wins_witness :
    recognizedMarker reqMulti = some cookieExperimentA ∧
      handler reqMulti 0 = .passThrough reqMulti :=
  first_match_wins [{ value := "foo=bar" }] [] []
    { value := "X-Experiment-Name=A" } { value := "X-Experiment-Name=B" }
    reqMulti 0 (by decide) (by decide) (by decide) rfl

/-- C7 counterexample: at a concrete cookie-less request the emitted
redirect's header-map keys are the lowercase "location" and
"set-cookie", not "Location" and "Set-Cookie". -/
theorem redirect_header_map_keys_counterexample :
    respHeaderKeys (handler reqNoCookie 0) = ["location", "set-cookie"] ∧
    respHeaderKeys (handler reqNoCookie 0) ≠ ["Location", "Set-Cookie"] := by
  decide

/-- C7 as amended: every redirect the handler emits has status "302",
statusDescription "Found", and a headers map whose keys are the
lowercase "location" and "set-cookie", each holding the single entry
with key field "Location" (value "/" or "/blue/") respectively
"Set-Cookie" (value marker A or marker B), coupled by variant. -/
theorem redirect_descriptor_exact (req : CFRequest) (rand : Rat)
    (resp : RedirectResponse)
    (h : handler req rand = .redirect resp) :
    resp.status = "302" ∧ resp.statusDescription = "Found" ∧
    (resp.headers =
        [("location", [{ key := "Location", value := "/" }]),
         ("set-cookie", [{ key := "Set-Cookie", value := cookieExperimentA }])] ∨
     resp.headers =
        [("location", [{ key := "Location", value := groupBUri }]),
         ("set-cookie", [{ key := "Set-Cookie", value := cookieExperimentB }])]) := by
  have hresp : resp = buildRedirect rand := by
    cases hm : recognizedMarker req with
    | some m => simp [handler, hm] at h
    | none =>
      simp [handler, hm] at h
      exact h.symm
  subst hresp
  by_cases hr : rand < 3 / 4
  · rw [buildRedirect_of_lt hr]
    exact ⟨rfl, rfl, Or.inl rfl⟩
  · rw [buildRedirect_of_not_lt hr]
    exact ⟨rfl, rfl, Or.inr rfl⟩

/-- Witness for the amended C7 at a concrete redirect. -/
theorem redirect_descriptor_exact_witness :
    (buildRedirect 0).status = "302" ∧
    (buildRedirect 0).statusDescription = "Found" ∧
    ((buildRedirect 0).headers =
        [("location", [{ key := "Location", value := "/" }]),
         ("set-cookie", [{ key := "Set-Cookie", value := cookieExperimentA }])] ∨
     (buildRedirect 0).headers =
        [("location", [{ key := "Location", value := groupBUri }]),
         ("set-cookie", [{ key := "Set-Cookie", value := cookieExperimentB }])]) :=
  redirect_descriptor_exact reqNoCookie 0 (buildRedirect 0) rfl

/-- C8: a request whose cookie header is absent, has an empty entry
list, or has only entries matching neither marker is not an error: the
handler takes the random-assignment redirect path, with the same
outcome as for a request with no cookie header at all. -/
theorem no_match_random_redirect (req : CFRequest) (rand : Rat)
    (h : req.headers.cookie = none ∨ req.headers.cookie = some [] ∨
      ∃ es, req.headers.cookie = some es ∧ ∀ e ∈ es,
        containsSubstr e.value cookieExperimentA = false ∧
        containsSubstr e.value cookieExperimentB = false) :
    handler req rand = .redirect (buildRedirect rand) ∧
      ∀ req2 : CFRequest, req2.headers.cookie = none →
        handler req rand = handler req2 rand := by
  have hm : recognizedMarker req = none := by
    rcases h with h | h | ⟨es, hes, hall⟩
    · simp [recognizedMarker, h]
    · simp [recognizedMarker, h, scanCookies]
    · simp [recognizedMarker, hes, scanCookies_of_all_unrecognized hall]
  refine ⟨by simp [handler, hm], fun req2 h2 => ?_⟩
  have hm2 : recognizedMarker req2 = none := by simp [recognizedMarker, h2]
  simp [handler, hm, hm2]

/-- Witness for C8 at a request whose sole cookie entry has an empty
value. -/
theorem no_match_random_redirect_witness :
    handler reqEmptyCookieValue 0 = .redirect (buildRedirect 0) ∧
      ∀ req2 : CFRequest, req2.headers.cookie = none →
        handler reqEmptyCookieValue 0 = handler req2 0 :=
  no_match_random_redirect reqEmptyCookieValue 0
    (Or.inr (Or.inr ⟨[{ value := "" }], rfl, by decide⟩))

/-- C9: a leading cookie entry whose value contains both markers is
recognized as A regardless of where the markers sit in the string,
because the A marker is tested before the B marker on each entry. -/
theorem both_markers_single_entry (e : CookieEntry) (rest : List CookieEntry)
    (req : CFRequest) (rand : Rat)
    (hA : containsSubstr e.value cookieExperimentA = true)
    (hB : containsSubstr e.value cookieExperimentB = true)
    (hc : req.headers.cookie = some (e :: rest)) :
    recognizedMarker req = some cookieExperimentA ∧
      handler req rand = .passThrough req := by
  have hscan : scanCookies (e :: rest) = some cookieExperimentA := by
    simp [scanCookies, hA]
  exact ⟨by simp [recognizedMarker, hc, hscan],
    by simp [handler, recognizedMarker, hc, hscan]⟩

/-- Witness for C9 at an entry whose value holds the B marker before
the A marker. -/
theorem both_markers_single_entry_witness :
    recognizedMarker reqBothMarkers = some cookieExperimentA ∧
      handler reqBothMarkers 0 = .passThrough reqBothMarkers :=
  both_markers_single_entry
    { value := "X-Experiment-Name=B; X-Experiment-Name=A" } [] reqBothMarkers 0
    (by decide) (by decide) rfl

/-- C10: every output is either the input request passed through or a
redirect whose location and set-cookie values are coupled: "/blue/"
exactly with marker B and "/" exactly with marker A. -/
theorem output_coupling (req : CFRequest) (rand : Rat) :
    handler req rand = .passThrough req ∨
    ∃ resp, handler req rand = .redirect resp ∧
      (headerValue resp "location" = some groupBUri ↔
        headerValue resp "set-cookie" = some cookieExperimentB) ∧
      (headerValue resp "location" = some "/" ↔
        headerValue resp "set-cookie" = some cookieExperimentA) := by
  cases hm : recognizedMarker req with
  | some m => exact Or.inl (by simp [handler, hm])
  | none =>
    refine Or.inr ⟨buildRedirect rand, by simp [handler, hm], ?_, ?_⟩
    · rw [headerValue_buildRedirect_location, headerValue_buildRedirect_setCookie]
      by_cases h : rand < 3 / 4
      · rw [if_pos h, if_pos h]
        exact iff_of_false (fun hv => absurd (Option.some.inj hv) (by decide))
          (fun hv => absurd (Option.some.inj hv) (by decide))
      · rw [if_neg h, if_neg h]
        exact iff_of_true rfl rfl
    · rw [headerValue_buildRedirect_location, headerValue_buildRedirect_setCookie]
      by_cases h : rand < 3 / 4
      · rw [if_pos h, if_pos h]
        exact iff_of_true rfl rfl
      · rw [if_neg h, if_neg h]
        exact iff_of_false (fun hv => absurd (Option.some.inj hv) (by decide))
          (fun hv => absurd (Option.some.inj hv) (by decide))

/-! ### Coherence of the two models

On a well-formed event — one record, every cookie entry with a `value`
field — the fault-sensitive model returns exactly the total model's
result and never an error. -/

/-- View a well-formed cookie entry as a raw one. -/
def toRawEntry (e : CookieEntry) : RawCookieEntry := { value := some e.value }

/-- View a well-formed request as a raw one. -/
def toRawRequest (r : CFRequest) : RawRequest :=
  { headers := { cookie := r.headers.cookie.map (List.map toRawEntry) } }

/-- Wrap a well-formed request as a one-record raw event. -/
def toRawEvent (r : CFRequest) : RawEvent := { records := some [toRawRequest r] }

/-- Transport a result of the total model into the raw result type. -/
def toRawResult : HandlerResult CFRequest → HandlerResult RawRequest
  | .passThrough r => .passThrough (toRawRequest r)
  | .redirect resp => .redirect resp

/-- The raw scan agrees with the total scan on entries with values. -/
lemma scanCookiesJS_map (es : List CookieEntry) :
    scanCookiesJS (es.map toRawEntry) = .ok (scanCookies es) := by
  induction es with
  | nil => rfl
  | cons e rest ih =>
    by_cases hA : containsSubstr e.value cookieExperimentA = true
    · simp [scanCookiesJS, scanCookies, toRawEntry, hA]
    · by_cases hB : containsSubstr e.value cookieExperimentB = true
      · simp [scanCookiesJS, scanCookies, toRawEntry, hA, hB]
      · simp [scanCookiesJS, scanCookies, toRawEntry, hA, hB, ih]

/-- On well-formed events the fault-sensitive model never throws and
computes exactly the total model's output. -/
theorem handlerJS_agrees_on_wellformed (req : CFRequest) (rand : Rat) :
    handlerJS (toRawEvent req) rand = .ok (toRawResult (handler req rand)) := by
  cases hc : req.headers.cookie with
  | none =>
    simp [handlerJS, toRawEvent, toRawRequest, handler, recognizedMarker, hc,
      toRawResult, Bind.bind, Except.bind]
  | some es =>
    cases hs : scanCookies es with
    | none =>
      simp [handlerJS, toRawEvent, toRawRequest, handler, recognizedMarker, hc,
        hs, scanCookiesJS_map, toRawResult, Bind.bind, Except.bind]
    | some m =>
      simp [handlerJS, toRawEvent, toRawRequest, handler, recognizedMarker, hc,
        hs, scanCookiesJS_map, toRawResult, Bind.bind, Except.bind]
